import Mathlib

/-!
Shallow embedding of the solioapp crowdfunding backend, for checking its
natural-language specification against the code.

Conventions of the embedding:
* Python `Decimal` amounts are modelled as `ℚ`.  Every `Decimal` operation the
  code performs on these values (multiplication, division by a power of ten,
  subtraction, absolute value, comparison) is exact at the value ranges the
  schema admits (`Numeric(18, 9)` columns, 28 significant digits of context
  precision), so rational arithmetic is a faithful model.
* Timestamps (`datetime.utcnow()`, `end_date`, `expires_at`) are modelled as
  natural numbers; only their ordering matters to the code under study.
* External effects (the Solana JSON-RPC endpoint, the Ed25519 primitive and
  the base58/base64 codecs of outside libraries) are modelled as explicit
  oracle parameters; the code under `src/` that consumes them is translated
  statement by statement.
* Database tables are lists of rows; SQLAlchemy `filter_by(...).first()` is
  `List.find?`, row mutation is functional update of the found row.
-/

namespace SolioApp

/-! ### Ledger transactions (solana_service.verify_transaction) -/

/-- One parsed instruction of a fetched transaction, as read by
`verify_transaction`: `instruction.get('program')`, `parsed.get('type')`,
and the `info` fields `source`, `destination`, `lamports` (with the
dictionary defaults already applied). -/
structure Instruction where
  program : String
  ptype : String
  source : String
  destination : String
  lamports : Nat
deriving DecidableEq, Repr

/-- A fetched transaction: `meta.err` (`none` when the on-chain execution
succeeded) and the parsed instruction list of `transaction.message`. -/
structure SolTx where
  err : Option String
  instructions : List Instruction
deriving DecidableEq, Repr

/-- Result dictionary of `verify_transaction`: the `success` flag and the
optional `error` message. -/
structure VerifyResult where
  success : Bool
  error : Option String
deriving DecidableEq, Repr

/-- Conversion from lamports to SOL: `Decimal(str(lamports)) / Decimal('1000000000')`. -/
def lamportsToSol (lamports : Nat) : ℚ :=
  (lamports : ℚ) / 1000000000

/-- The absolute comparison tolerance `Decimal('0.000001')`. -/
def tolerance : ℚ := 1 / 1000000

/-- Whether one instruction passes every check of the scan loop in
`verify_transaction`: system-program transfer, expected sender, expected
recipient, and amount within tolerance (the loop `continue`s exactly when
`abs(amount_sol - expected_amount_sol) > tolerance`). -/
def matchesTransfer (expected_sender expected_recipient : String)
    (expected_amount_sol : ℚ) (ix : Instruction) : Bool :=
  ix.program == "system" && ix.ptype == "transfer" &&
  ix.source == expected_sender && ix.destination == expected_recipient &&
  !(decide (tolerance < |lamportsToSol ix.lamports - expected_amount_sol|))

/-- The instruction scan of `verify_transaction`: return success at the first
instruction passing every check, otherwise the transfer-not-found failure. -/
def scanInstructions (expected_sender expected_recipient : String)
    (expected_amount_sol : ℚ) : List Instruction → VerifyResult
  | [] => ⟨false, some "Transfer not found in transaction"⟩
  | ix :: rest =>
    if matchesTransfer expected_sender expected_recipient expected_amount_sol ix then
      ⟨true, none⟩
    else
      scanInstructions expected_sender expected_recipient expected_amount_sol rest

/-- Evaluation of a fetched transaction, after the poll loop: the meta error
check, then the instruction scan. -/
def evaluateTx (expected_recipient : String) (expected_amount_sol : ℚ)
    (expected_sender : String) (tx : SolTx) : VerifyResult :=
  if tx.err.isSome then ⟨false, some "Transaction failed"⟩
  else scanInstructions expected_sender expected_recipient expected_amount_sol tx.instructions

/-- The poll budget `max_retries = 10`. -/
def maxRetries : Nat := 10

/-- The fixed inter-poll delay `retry_delay = 2` seconds. -/
def retryDelay : Nat := 2

/-- The poll loop of `verify_transaction` over an RPC oracle mapping the
attempt number to the (possibly null) `getTransaction` result.  Returns the
fetched transaction (if any), the number of polls issued, and the total
seconds slept (`time.sleep(retry_delay)` runs after each null result except
on the final attempt). -/
def pollLoop (rpc : Nat → Option SolTx) : Nat → Nat → Option SolTx × Nat × Nat
  | 0, attempt => (none, attempt, 0)
  | fuel + 1, attempt =>
    match rpc attempt with
    | some tx => (some tx, attempt + 1, 0)
    | none =>
      if fuel = 0 then (none, attempt + 1, 0)
      else
        let r := pollLoop rpc fuel (attempt + 1)
        (r.1, r.2.1, retryDelay + r.2.2)

/-- The whole retry phase: poll from attempt 0 with the full budget. -/
def pollForTx (rpc : Nat → Option SolTx) : Option SolTx × Nat × Nat :=
  pollLoop rpc maxRetries 0

/-- The function `verify_transaction` of `app/services/solana_service.py`,
over an RPC oracle. -/
def verify_transaction (rpc : Nat → Option SolTx) (expected_recipient : String)
    (expected_amount_sol : ℚ) (expected_sender : String) : VerifyResult :=
  match (pollForTx rpc).1 with
  | none => ⟨false, some "Transaction not found or not confirmed after retries"⟩
  | some tx => evaluateTx expected_recipient expected_amount_sol expected_sender tx

/-! ### Wallet signature verification (solana_service.verify_wallet_signature) -/

/-- The outside cryptographic primitives consumed by
`verify_wallet_signature`: the base58 and base64 decoders (`none` models a
raised decoding exception) and the nacl `VerifyKey(...).verify(...)` call
(`Except.error` models a raised `BadSignatureError` or construction
failure). -/
structure CryptoPrims where
  b58decode : String → Option (List Nat)
  b64decode : String → Option (List Nat)
  ed25519Verify : List Nat → List Nat → List Nat → Except String Unit

/-- The UTF-8 encoding `message.encode('utf-8')`. -/
def utf8Bytes (message : String) : List Nat :=
  message.toUTF8.toList.map (fun b => b.toNat)

/-- The nested signature decoding of `verify_wallet_signature`: try base58
first and fall back to base64; `none` when both raise. -/
def decodeSignatureBytes (c : CryptoPrims) (signature : String) : Option (List Nat) :=
  match c.b58decode signature with
  | some bytes => some bytes
  | none =>
    match c.b64decode signature with
    | some bytes => some bytes
    | none => none

/-- The function `verify_wallet_signature` of `app/services/solana_service.py`.
Every raised exception of the body is caught and converted to `false`; the
translation therefore returns a plain `Bool`. -/
def verify_wallet_signature (c : CryptoPrims) (wallet_address message signature : String) : Bool :=
  match c.b58decode wallet_address with
  | none => false
  | some public_key_bytes =>
    match decodeSignatureBytes c signature with
    | none => false
    | some signature_bytes =>
      match c.ed25519Verify public_key_bytes (utf8Bytes message) signature_bytes with
      | Except.ok _ => true
      | Except.error _ => false

/-! ### Python string stripping -/

/-- Whitespace characters removed by Python `str.strip()`. -/
def isSpaceChar (ch : Char) : Bool :=
  ch == ' ' || ch == '\t' || ch == '\n' || ch == '\r'

/-- Dropping leading whitespace from a character list. -/
def dropLeadingSpaces : List Char → List Char
  | [] => []
  | ch :: rest => if isSpaceChar ch then dropLeadingSpaces rest else ch :: rest

/-- Python `str.strip()`: remove leading and trailing whitespace. -/
def stripString (s : String) : String :=
  String.mk (List.reverse (dropLeadingSpaces (List.reverse (dropLeadingSpaces s.data))))

/-! ### Wallet nonces and the wallet-verify route (models/wallet_nonce.py, routes/auth.py) -/

/-- A row of the `wallet_nonces` table. -/
structure WalletNonce where
  wallet_address : String
  nonce : String
  expires_at : Nat
  used : Bool
deriving DecidableEq, Repr

namespace WalletNonce

/-- The property `WalletNonce.is_valid`: not used and not expired. -/
def is_valid (now : Nat) (n : WalletNonce) : Bool :=
  !n.used && decide (now < n.expires_at)

/-- The property `WalletNonce.message_to_sign`. -/
def message_to_sign (n : WalletNonce) : String :=
  "Sign this message to authenticate with Solio.\n\nNonce: " ++ n.nonce

/-- The method `WalletNonce.mark_used`. -/
def mark_used (n : WalletNonce) : WalletNonce :=
  { n with used := true }

end WalletNonce

/-- A row of the `users` table, restricted to the fields the wallet-verify
route reads or writes. -/
structure User where
  username : String
  wallet_address : Option String
  auth_type : String
deriving DecidableEq, Repr

/-- The database state the wallet-verify route touches. -/
structure AuthDB where
  nonces : List WalletNonce
  users : List User
deriving DecidableEq, Repr

/-- The JSON body of a `POST /wallet/verify` request. -/
structure WalletVerifyRequest where
  wallet_address : String
  signature : String
  nonce : String
deriving DecidableEq, Repr

/-- The response of the wallet-verify route: the `success` flag and the
optional `error` message (HTTP status is determined by these). -/
structure WalletVerifyResult where
  success : Bool
  error : Option String
deriving DecidableEq, Repr

/-- The lookup `WalletNonce.query.filter_by(wallet_address=..., nonce=...).first()`. -/
def findNonce (wallet_address nonce : String) (nonces : List WalletNonce) : Option WalletNonce :=
  nonces.find? (fun n => n.wallet_address == wallet_address && n.nonce == nonce)

/-- Marking the found nonce row used: the ORM mutates the object `first()`
returned, i.e. the first matching row of the table. -/
def markFirstUsed (wallet_address nonce : String) : List WalletNonce → List WalletNonce
  | [] => []
  | n :: rest =>
    if n.wallet_address == wallet_address && n.nonce == nonce then
      n.mark_used :: rest
    else
      n :: markFirstUsed wallet_address nonce rest

/-- The first free generated username: `wallet_` + 6-char prefix + counter,
mirroring the collision loop of the route (fuel-bounded; the fuel
`users.length + 1` always suffices since the candidates are distinct). -/
def freshCounterName (users : List User) (base6 : String) : Nat → Nat → String
  | counter, 0 => base6 ++ toString counter
  | counter, fuel + 1 =>
    let candidate := base6 ++ toString counter
    if users.any (fun u => u.username == candidate) then
      freshCounterName users base6 (counter + 1) fuel
    else
      candidate

/-- Username generation of the wallet-verify route: `wallet_` + the first 8
characters of the address, then the counter loop on collision. -/
def genWalletUsername (users : List User) (wallet_address : String) : String :=
  let base := "wallet_" ++ (wallet_address.take 8)
  if users.any (fun u => u.username == base) then
    freshCounterName users ("wallet_" ++ (wallet_address.take 6)) 1 (users.length + 1)
  else
    base

/-- The find-or-create step of the wallet-verify route:
`User.query.filter_by(wallet_address=...).first()`, creating a wallet user
when absent. -/
def findOrCreateUser (wallet_address : String) (users : List User) : List User :=
  match users.find? (fun u => u.wallet_address == some wallet_address) with
  | some _ => users
  | none =>
    users ++ [{ username := genWalletUsername users wallet_address,
                wallet_address := some wallet_address,
                auth_type := "wallet" }]

/-- The route `wallet_verify` of `app/routes/auth.py`: find and validate the
nonce, verify the signature, mark the nonce used, find or create the user.
Returns the response and the updated database. -/
def wallet_verify (c : CryptoPrims) (now : Nat) (db : AuthDB)
    (req : WalletVerifyRequest) : WalletVerifyResult × AuthDB :=
  let wallet_address := stripString req.wallet_address
  if wallet_address == "" || req.signature == "" || req.nonce == "" then
    (⟨false, some "Missing required data"⟩, db)
  else
    match findNonce wallet_address req.nonce db.nonces with
    | none => (⟨false, some "Invalid or expired nonce"⟩, db)
    | some wallet_nonce =>
      if !wallet_nonce.is_valid now then
        (⟨false, some "Invalid or expired nonce"⟩, db)
      else if !verify_wallet_signature c wallet_address wallet_nonce.message_to_sign req.signature then
        (⟨false, some "Invalid signature"⟩, db)
      else
        (⟨true, none⟩,
         { nonces := markFirstUsed wallet_address req.nonce db.nonces,
           users := findOrCreateUser wallet_address db.users })

/-! ### Projects, milestones and payouts (models/project.py, models/milestone.py,
models/payout.py, services/payout_service.py) -/

/-- A row of the `milestones` table, restricted to the fields the milestone
logic reads or writes. -/
structure Milestone where
  amount_sol : ℚ
  reached : Bool
  reached_at : Option Nat
deriving DecidableEq, Repr

/-- A row of the `projects` table, restricted to the fields the donation and
payout logic reads or writes.  `creator_wallet` is
`project.creator.wallet_address` (nullable). -/
structure Project where
  id : Nat
  status : String
  end_date : Nat
  raised_sol : ℚ
  payout_status : String
  payout_tx : Option String
  milestones : List Milestone
  creator_wallet : Option String
deriving DecidableEq, Repr

/-- The property `Project.is_active`: accepting donations. -/
def Project.is_active (now : Nat) (p : Project) : Bool :=
  p.status == "active" && decide (now < p.end_date)

/-- Python truthiness of `project.creator.wallet_address`: `None` and the
empty string are both falsy. -/
def walletTruthy (w : Option String) : Bool :=
  match w with
  | none => false
  | some s => s != ""

/-- The milestone sweep shared by `Project.check_milestones` and the donation
route: each unreached milestone whose threshold is covered by the raised
amount is marked reached and stamped. -/
def updateMilestones (now : Nat) (raised_sol : ℚ) (ms : List Milestone) : List Milestone :=
  ms.map (fun m =>
    if !m.reached && decide (raised_sol ≥ m.amount_sol) then
      { m with reached := true, reached_at := some now }
    else m)

/-- The method `Project.check_milestones`. -/
def Project.check_milestones (now : Nat) (p : Project) : Project :=
  { p with milestones := updateMilestones now p.raised_sol p.milestones }

/-- A row of the `payouts` table. -/
structure Payout where
  project_id : Nat
  total_raised : ℚ
  platform_fee : ℚ
  net_amount : ℚ
  recipient_wallet : String
  tx_signature : Option String
  status : String
  error_message : Option String
  completed_at : Option Nat
deriving DecidableEq, Repr

/-- The configuration values `process_single_payout` reads. -/
structure PayoutConfig where
  platform_fee_percent : ℚ
  platform_wallet_secret : String
deriving DecidableEq, Repr

/-- Outcome of the external `send_sol` call, as consumed by the payout
engine: the `success` dictionary with a signature, or a failure with an
error message. -/
inductive SendResult where
  | success (signature : String)
  | failure (error : String)
deriving DecidableEq, Repr

/-- Result of one settlement attempt: the returned flag, the mutated project
row, the `Payout` row persisted by the attempt (if any), and the ledger
transfers submitted (recipient, amount). -/
structure SettleOutcome where
  ok : Bool
  project : Project
  payout : Option Payout
  transfers : List (String × ℚ)
deriving DecidableEq, Repr

/-- The function `process_single_payout` of `app/services/payout_service.py`,
over a `send_sol` oracle.  When the creator wallet is SQL `NULL` the
`recipient_wallet NOT NULL` insert fails and the surrounding handler marks
the project failed, mirroring the `except` branch. -/
def process_single_payout (cfg : PayoutConfig) (send : String → ℚ → SendResult)
    (now : Nat) (project : Project) : SettleOutcome :=
  if cfg.platform_wallet_secret == "" then
    ⟨false, project, none, []⟩
  else
    let total_raised := project.raised_sol
    let platform_fee := total_raised * cfg.platform_fee_percent / 100
    let net_amount := total_raised - platform_fee
    if net_amount < 1 / 1000 then
      ⟨false, project, none, []⟩
    else
      match project.creator_wallet with
      | none => ⟨false, { project with payout_status := "failed" }, none, []⟩
      | some recipient =>
        let payout : Payout :=
          { project_id := project.id, total_raised := total_raised,
            platform_fee := platform_fee, net_amount := net_amount,
            recipient_wallet := recipient, tx_signature := none,
            status := "processing", error_message := none, completed_at := none }
        let project1 := { project with payout_status := "processing" }
        match send recipient net_amount with
        | SendResult.success signature =>
          ⟨true,
           { project1 with payout_status := "completed", payout_tx := some signature },
           some { payout with tx_signature := some signature, status := "completed",
                              completed_at := some now },
           [(recipient, net_amount)]⟩
        | SendResult.failure err =>
          ⟨false,
           { project1 with payout_status := "failed" },
           some { payout with status := "failed", error_message := some err },
           [(recipient, net_amount)]⟩

/-- Result of `retry_failed_payout`: the structured dictionary plus the
updated project table, the `Payout` row persisted (if any) and the ledger
transfers submitted. -/
structure RetryOutcome where
  ok : Bool
  message : Option String
  error : Option String
  projects : List Project
  payout : Option Payout
  transfers : List (String × ℚ)
deriving DecidableEq, Repr

/-- Replacing the mutated project row in the table. -/
def replaceProject (projects : List Project) (q : Project) : List Project :=
  projects.map (fun p => if p.id == q.id then q else p)

/-- The function `retry_failed_payout` of `app/services/payout_service.py`. -/
def retry_failed_payout (cfg : PayoutConfig) (send : String → ℚ → SendResult)
    (now : Nat) (projects : List Project) (project_id : Nat) : RetryOutcome :=
  match projects.find? (fun p => p.id == project_id) with
  | none => ⟨false, none, some "Project not found", projects, none, []⟩
  | some project =>
    if project.payout_status != "failed" then
      ⟨false, none, some "Payout is not in failed status", projects, none, []⟩
    else if !walletTruthy project.creator_wallet then
      ⟨false, none, some "Creator has no wallet address set", projects, none, []⟩
    else
      let project1 := { project with payout_status := "pending" }
      let r := process_single_payout cfg send now project1
      let projects2 := replaceProject projects r.project
      if r.ok then
        ⟨true, some "Payout sent successfully", none, projects2, r.payout, r.transfers⟩
      else
        ⟨false, none, some "Payout failed", projects2, r.payout, r.transfers⟩

/-! ### Donations and the verify route (models/donation.py, models/reward_tier.py,
routes/donations.py, utils/validators.py) -/

/-- A row of the `donations` table, restricted to the fields the verify route
writes. -/
structure Donation where
  project_id : Nat
  user_id : Option Nat
  reward_tier_id : Option Nat
  amount_sol : ℚ
  platform_fee : Option ℚ
  message : Option String
  donor_email : Option String
  tx_signature : String
  donor_wallet : String
  status : String
deriving DecidableEq, Repr

/-- The method `Donation.calculate_fee`: set
`platform_fee = amount_sol * fee_percent / 100`. -/
def Donation.calculate_fee (d : Donation) (fee_percent : ℚ) : Donation :=
  { d with platform_fee := some (d.amount_sol * fee_percent / 100) }

/-- A row of the `reward_tiers` table, restricted to the fields the verify
route reads or writes. -/
structure RewardTier where
  id : Nat
  project_id : Nat
  min_amount_sol : ℚ
  max_claims : Option Nat
  claimed_count : Nat
deriving DecidableEq, Repr

/-- The property `RewardTier.is_available`. -/
def RewardTier.is_available (t : RewardTier) : Bool :=
  match t.max_claims with
  | none => true
  | some m => decide (t.claimed_count < m)

/-- The method `RewardTier.claim`. -/
def RewardTier.claim (t : RewardTier) : RewardTier :=
  { t with claimed_count := t.claimed_count + 1 }

/-- The database state the donation verify route touches. -/
structure DonationDB where
  projects : List Project
  donations : List Donation
  reward_tiers : List RewardTier
deriving DecidableEq, Repr

/-- The JSON body of a `POST /verify` donation request.  `amount_sol` is
`none` when the field is absent, empty or not a decimal numeral (the
`Decimal(str(...))` call of `validate_sol_amount` raises); `project_id` and
`reward_tier_id` are `none` when absent or JSON `null`. -/
structure DonationRequest where
  project_id : Option Nat
  tx_signature : String
  amount_sol : Option ℚ
  donor_wallet : String
  message : String
  reward_tier_id : Option Nat
  donor_email : Option String
deriving Repr

/-- The validator `validate_sol_amount`: a parsed positive decimal of at most
one billion. -/
def validate_sol_amount (amount : Option ℚ) : Bool :=
  match amount with
  | none => false
  | some a => decide (0 < a) && decide (a ≤ 1000000000)

/-- Python truthiness of the four required fields inside `all([...])`: a
missing or zero id and an empty (stripped) string are falsy. -/
def requiredFieldsTruthy (project_id : Option Nat) (tx_signature : String)
    (amount_sol : Option ℚ) (donor_wallet : String) : Bool :=
  (match project_id with | none => false | some i => i != 0) &&
  tx_signature != "" &&
  (match amount_sol with | none => false | some a => a != 0) &&
  donor_wallet != ""

/-- Python truthiness of `reward_tier_id`. -/
def tierIdTruthy (tid : Option Nat) : Bool :=
  match tid with
  | none => false
  | some i => i != 0

/-- The parsed `donor_email`: `None` when the raw field is falsy, otherwise
the stripped string (which may itself be empty and hence falsy later). -/
def parsedEmail (raw : Option String) : Option String :=
  match raw with
  | none => none
  | some s => if s == "" then none else some (stripString s)

/-- Python truthiness of the parsed `donor_email` at the reward-tier check. -/
def emailTruthy (email : Option String) : Bool :=
  match email with
  | none => false
  | some s => s != ""

/-- The response of the donation verify route: HTTP status, the `success`
flag and the optional `error` message. -/
structure DonationResponse where
  status : Nat
  ok : Bool
  error : Option String
deriving DecidableEq, Repr

/-- The configuration values the donation verify route reads. -/
structure DonationConfig where
  platform_wallet_address : String
  platform_fee_percent : ℚ
deriving DecidableEq, Repr

/-- The reward-tier block of the verify route: when a tier id is given, look
the tier up and check ownership, availability, minimum amount and contact
requirement; return the tier to claim, or the error response. -/
def checkRewardTier (db : DonationDB) (project_id : Nat) (amount_sol : ℚ)
    (reward_tier_id : Option Nat) (donor_email : Option String) :
    Except DonationResponse (Option RewardTier) :=
  if tierIdTruthy reward_tier_id then
    match reward_tier_id with
    | none => Except.error (⟨400, false, some "Invalid reward tier"⟩ : DonationResponse)
    | some tid =>
      match db.reward_tiers.find? (fun t => t.id == tid) with
      | none => Except.error ⟨400, false, some "Invalid reward tier"⟩
      | some tier =>
        if tier.project_id != project_id then
          Except.error ⟨400, false, some "Invalid reward tier"⟩
        else if !tier.is_available then
          Except.error ⟨400, false, some "This reward tier is sold out"⟩
        else if amount_sol < tier.min_amount_sol then
          Except.error ⟨400, false, some "Minimum amount for this reward not met"⟩
        else if !emailTruthy donor_email then
          Except.error ⟨400, false, some "Email is required for reward delivery"⟩
        else
          Except.ok (some tier)
  else
    Except.ok none

/-- The atomic unit of the verify route: insert the confirmed donation with
its computed fee, claim the reward tier if any, add the amount to the
project's raised total and sweep its milestones. -/
def recordDonation (cfg : DonationConfig) (now : Nat) (current_user : Option Nat)
    (db : DonationDB) (project_id : Nat) (amount_sol : ℚ) (project : Project)
    (reward_tier : Option RewardTier) (tx_signature donor_wallet message : String)
    (donor_email : Option String) : DonationResponse × DonationDB :=
  let donation : Donation :=
    Donation.calculate_fee
      { project_id := project_id,
        user_id := current_user,
        reward_tier_id := reward_tier.map (fun t => t.id),
        amount_sol := amount_sol,
        platform_fee := none,
        message := if message == "" then none else some (message.take 1000),
        donor_email := donor_email,
        tx_signature := tx_signature,
        donor_wallet := donor_wallet,
        status := "confirmed" }
      cfg.platform_fee_percent
  let reward_tiers2 :=
    match reward_tier with
    | none => db.reward_tiers
    | some tier => db.reward_tiers.map (fun t => if t.id == tier.id then t.claim else t)
  let raised2 := project.raised_sol + amount_sol
  let project2 :=
    { project with raised_sol := raised2,
                   milestones := updateMilestones now raised2 project.milestones }
  (⟨200, true, none⟩,
   { projects := replaceProject db.projects project2,
     donations := db.donations ++ [donation],
     reward_tiers := reward_tiers2 })

/-- The route `verify_donation` of `app/routes/donations.py`, over the RPC
oracle of the transaction verifier: input validation, project checks,
duplicate-signature check, on-chain verification, `checkRewardTier`, then
the atomic unit `recordDonation`. -/
def verify_donation (cfg : DonationConfig) (now : Nat) (rpc : Nat → Option SolTx)
    (current_user : Option Nat) (db : DonationDB) (req : DonationRequest) :
    DonationResponse × DonationDB :=
  let tx_signature := stripString req.tx_signature
  let donor_wallet := stripString req.donor_wallet
  let message := stripString req.message
  let donor_email := parsedEmail req.donor_email
  if !requiredFieldsTruthy req.project_id tx_signature req.amount_sol donor_wallet then
    (⟨400, false, some "Missing required data"⟩, db)
  else if !validate_sol_amount req.amount_sol then
    (⟨400, false, some "Invalid amount"⟩, db)
  else
    match req.project_id, req.amount_sol with
    | some project_id, some amount_sol =>
      match db.projects.find? (fun p => p.id == project_id) with
      | none => (⟨404, false, some "Project not found"⟩, db)
      | some project =>
        if !project.is_active now then
          (⟨400, false, some "Project no longer accepts donations"⟩, db)
        else if (db.donations.find? (fun d => d.tx_signature == tx_signature)).isSome then
          (⟨400, false, some "Transaction already processed"⟩, db)
        else
          let verification_result :=
            verify_transaction rpc cfg.platform_wallet_address amount_sol donor_wallet
          if !verification_result.success then
            (⟨400, false, verification_result.error⟩, db)
          else
            match checkRewardTier db project_id amount_sol req.reward_tier_id donor_email with
            | Except.error resp => (resp, db)
            | Except.ok reward_tier =>
              recordDonation cfg now current_user db project_id amount_sol project reward_tier
                tx_signature donor_wallet message donor_email
    | _, _ => (⟨400, false, some "Missing required data"⟩, db)

/-- One submission to the verify route: the request together with the
ambient clock, RPC oracle and session user of that call. -/
structure Submission where
  now : Nat
  rpc : Nat → Option SolTx
  current_user : Option Nat
  req : DonationRequest

/-- A sequence of submissions, folded over the database. -/
def submitAll (cfg : DonationConfig) (db : DonationDB) (subs : List Submission) : DonationDB :=
  subs.foldl (fun acc s => (verify_donation cfg s.now s.rpc s.current_user acc s.req).2) db

/-- At most one donation row per ledger signature. -/
def AtMostOnePerSignature (ds : List Donation) : Prop :=
  List.Pairwise (fun a b => a.tx_signature ≠ b.tx_signature) ds

instance : DecidablePred AtMostOnePerSignature := fun ds =>
  List.instDecidablePairwise ds

/-- Pointwise monotonicity of the milestone reached-flags between two
states of a project's milestone list. -/
def MilestoneFlagsMono (ms ms2 : List Milestone) : Prop :=
  List.Forall₂ (fun m m2 => m.reached = true → m2.reached = true) ms ms2

/-! ### Concrete fixtures used by witnesses and counterexamples -/

/-- A campaign with milestones at 10 and 20 units and nothing raised yet. -/
def msProject : Project :=
  { id := 1, status := "active", end_date := 1000, raised_sol := 0,
    payout_status := "pending", payout_tx := none,
    milestones := [⟨10, false, none⟩, ⟨20, false, none⟩], creator_wallet := none }

/-- The donation database holding just `msProject`. -/
def msDB : DonationDB := ⟨[msProject], [], []⟩

/-- A donation configuration with platform wallet `PLAT` and a 2.5% fee. -/
def msCfg : DonationConfig := ⟨"PLAT", 5/2⟩

/-- A successful on-chain transaction carrying one system transfer of the
given lamports from `DONOR` to `PLAT`. -/
def donationTx (lamports : Nat) : SolTx :=
  ⟨none, [⟨"system", "transfer", "DONOR", "PLAT", lamports⟩]⟩

/-- One donation submission of the given amount, whose RPC oracle returns the
matching transfer immediately. -/
def donationSub (sig : String) (amount : ℚ) (lamports : Nat) : Submission :=
  { now := 0, rpc := fun _ => some (donationTx lamports), current_user := none,
    req := { project_id := some 1, tx_signature := sig, amount_sol := some amount,
             donor_wallet := "DONOR", message := "", reward_tier_id := none,
             donor_email := none } }

/-- The amounts [5, 6, 12] of the milestone scenario, as submissions. -/
def msSub1 : Submission := donationSub "sig1" 5 5000000000

/-- Second scenario submission. -/
def msSub2 : Submission := donationSub "sig2" 6 6000000000

/-- Third scenario submission. -/
def msSub3 : Submission := donationSub "sig3" 12 12000000000

/-- The reached-flags of the scenario campaign in a database state. -/
def milestoneFlags (db : DonationDB) : Option (List Bool) :=
  (db.projects.find? (fun p => p.id == 1)).map (fun p => p.milestones.map Milestone.reached)

/-- An already-recorded donation carrying ledger signature `sig1`. -/
def dupDonation : Donation :=
  { project_id := 1, user_id := none, reward_tier_id := none, amount_sol := 5,
    platform_fee := some (1/8), message := none, donor_email := none,
    tx_signature := "sig1", donor_wallet := "DONOR", status := "confirmed" }

/-- A database already holding `dupDonation`. -/
def dupDB : DonationDB := ⟨[msProject], [dupDonation], []⟩

/-- A settled campaign with `total_raised = 100` for the fee-arithmetic
property. -/
def feeProject : Project :=
  { id := 7, status := "ended", end_date := 0, raised_sol := 100,
    payout_status := "pending", payout_tx := none, milestones := [],
    creator_wallet := some "CREATOR" }

/-- A campaign whose net amount at a 20% fee is exactly the 0.001 dust
threshold: `0.00125 - 0.00125 * 20 / 100 = 0.001`. -/
def dustProject : Project :=
  { id := 1, status := "ended", end_date := 0, raised_sol := 1 / 800,
    payout_status := "pending", payout_tx := none, milestones := [],
    creator_wallet := some "W" }

/-- A campaign whose net amount is strictly below the dust threshold. -/
def tinyProject : Project :=
  { id := 2, status := "ended", end_date := 0, raised_sol := 1 / 2000,
    payout_status := "pending", payout_tx := none, milestones := [],
    creator_wallet := some "W" }

/-- A campaign in the failed payout state, for the retry witness. -/
def failedProject : Project :=
  { id := 3, status := "ended", end_date := 0, raised_sol := 10,
    payout_status := "failed", payout_tx := none, milestones := [],
    creator_wallet := some "W" }

/-- A `send_sol` oracle that always succeeds. -/
def sendAlways : String → ℚ → SendResult := fun _ _ => SendResult.success "PAYSIG"

/-- Crypto primitives on which every decode and every verification
succeeds. -/
def acceptPrims : CryptoPrims :=
  ⟨fun _ => some [1], fun _ => some [2], fun _ _ _ => Except.ok ()⟩

/-- Crypto primitives on which decoding succeeds but Ed25519 verification
always raises. -/
def rejectPrims : CryptoPrims :=
  ⟨fun _ => some [1], fun _ => some [2], fun _ _ _ => Except.error "BadSignatureError"⟩

/-- An unused, unexpired nonce row. -/
def nonceFixture : WalletNonce :=
  { wallet_address := "addr1", nonce := "tok1", expires_at := 100, used := false }

/-- An auth database holding just `nonceFixture`. -/
def authDBFixture : AuthDB := ⟨[nonceFixture], []⟩

/-- A wallet-verify request matching `nonceFixture`. -/
def verifyReqFixture : WalletVerifyRequest :=
  { wallet_address := "addr1", signature := "sigX", nonce := "tok1" }

/-! ### Helper lemmas -/

/-- The instruction scan is governed by `List.find?` over the per-instruction
predicate: the first qualifying instruction is accepted, and an empty search
yields the transfer-not-found failure. -/
theorem scanInstructions_eq_find (sender recipient : String) (amount : ℚ) :
    ∀ instrs : List Instruction,
      scanInstructions sender recipient amount instrs =
        match instrs.find? (matchesTransfer sender recipient amount) with
        | some _ => ⟨true, none⟩
        | none => ⟨false, some "Transfer not found in transaction"⟩
  | [] => rfl
  | ix :: rest => by
    by_cases h : matchesTransfer sender recipient amount ix
    · simp [scanInstructions, List.find?, h]
    · simp only [scanInstructions, if_neg h]
      rw [scanInstructions_eq_find sender recipient amount rest]
      simp [List.find?, h]

/-- Unfolding of the per-instruction predicate into its five checks. -/
theorem matchesTransfer_iff (sender recipient : String) (amount : ℚ) (ix : Instruction) :
    matchesTransfer sender recipient amount ix = true ↔
      ix.program = "system" ∧ ix.ptype = "transfer" ∧ ix.source = sender ∧
        ix.destination = recipient ∧ |lamportsToSol ix.lamports - amount| ≤ tolerance := by
  simp only [matchesTransfer, Bool.and_eq_true, beq_iff_eq, Bool.not_eq_true', decide_eq_false_iff_not,
    not_lt, and_assoc]

/-- Lower bound on the attempt counter the poll loop returns. -/
theorem pollLoop_polls_ge (rpc : Nat → Option SolTx) :
    ∀ fuel attempt, 0 < fuel → attempt + 1 ≤ (pollLoop rpc fuel attempt).2.1
  | 0, _, h => absurd h (by omega)
  | fuel + 1, attempt, _ => by
    simp only [pollLoop]
    cases rpc attempt with
    | some tx => simp
    | none =>
      by_cases h0 : fuel = 0
      · simp [h0]
      · have ih := pollLoop_polls_ge rpc fuel (attempt + 1) (by omega)
        simp only [if_neg h0]
        omega

/-- Upper bound on the attempt counter the poll loop returns. -/
theorem pollLoop_polls_le (rpc : Nat → Option SolTx) :
    ∀ fuel attempt, (pollLoop rpc fuel attempt).2.1 ≤ attempt + fuel
  | 0, attempt => by simp [pollLoop]
  | fuel + 1, attempt => by
    simp only [pollLoop]
    cases rpc attempt with
    | some tx => simp
    | none =>
      by_cases h0 : fuel = 0
      · simp [h0]
      · have ih := pollLoop_polls_le rpc fuel (attempt + 1)
        simp only [if_neg h0]
        omega

/-- The seconds slept equal the fixed delay times the number of polls that
came back null before the loop stopped. -/
theorem pollLoop_slept (rpc : Nat → Option SolTx) :
    ∀ fuel attempt, 0 < fuel →
      (pollLoop rpc fuel attempt).2.2 =
        retryDelay * ((pollLoop rpc fuel attempt).2.1 - attempt - 1)
  | 0, _, h => absurd h (by omega)
  | fuel + 1, attempt, _ => by
    simp only [pollLoop]
    cases rpc attempt with
    | some tx => simp
    | none =>
      by_cases h0 : fuel = 0
      · simp [h0]
      · have ih := pollLoop_slept rpc fuel (attempt + 1) (by omega)
        have hge := pollLoop_polls_ge rpc fuel (attempt + 1) (by omega)
        simp only [if_neg h0]
        simp only [retryDelay] at ih ⊢
        omega

/-- The poll loop stops at the first non-null RPC result. -/
theorem pollLoop_first_found (rpc : Nat → Option SolTx) :
    ∀ fuel attempt i tx, i < fuel → rpc (attempt + i) = some tx →
      (∀ j, j < i → rpc (attempt + j) = none) →
      pollLoop rpc fuel attempt = (some tx, attempt + i + 1, retryDelay * i)
  | 0, _, i, _, hi, _, _ => absurd hi (by omega)
  | fuel + 1, attempt, i, tx, hi, hfound, hnone => by
    match i with
    | 0 =>
      have : rpc attempt = some tx := by simpa using hfound
      simp [pollLoop, this]
    | i + 1 =>
      have h0 : rpc attempt = none := by simpa using hnone 0 (by omega)
      have hf : fuel ≠ 0 := by omega
      have ih := pollLoop_first_found rpc fuel (attempt + 1) i tx (by omega)
        (by simpa [Nat.add_assoc, Nat.add_comm 1 i] using hfound)
        (fun j hj => by
          have := hnone (j + 1) (by omega)
          simpa [Nat.add_assoc, Nat.add_comm 1 j] using this)
      simp only [pollLoop, h0, if_neg hf, ih]
      refine Prod.ext rfl (Prod.ext ?_ ?_) <;> simp [retryDelay] <;> omega

/-- With every poll null, the loop exhausts its budget. -/
theorem pollLoop_all_none (rpc : Nat → Option SolTx) :
    ∀ fuel attempt, 0 < fuel → (∀ j, j < fuel → rpc (attempt + j) = none) →
      pollLoop rpc fuel attempt = (none, attempt + fuel, retryDelay * (fuel - 1))
  | 0, _, h, _ => absurd h (by omega)
  | fuel + 1, attempt, _, hnone => by
    have h0 : rpc attempt = none := by simpa using hnone 0 (by omega)
    by_cases hf : fuel = 0
    · subst hf
      simp [pollLoop, h0]
    · have ih := pollLoop_all_none rpc fuel (attempt + 1) (by omega)
        (fun j hj => by
          have := hnone (j + 1) (by omega)
          simpa [Nat.add_assoc, Nat.add_comm 1 j] using this)
      simp only [pollLoop, h0, if_neg hf, ih]
      refine Prod.ext rfl (Prod.ext ?_ ?_) <;> simp [retryDelay] <;> omega

theorem recordDonation_shape (cfg : DonationConfig) (now : Nat) (cu : Option Nat)
    (db : DonationDB) (project_id : Nat) (amount_sol : ℚ) (project : Project)
    (reward_tier : Option RewardTier) (tx_signature donor_wallet message : String)
    (donor_email : Option String) :
    (recordDonation cfg now cu db project_id amount_sol project reward_tier tx_signature
      donor_wallet message donor_email).1.ok = true ∧
    ∃ d, d.tx_signature = tx_signature ∧
      (recordDonation cfg now cu db project_id amount_sol project reward_tier tx_signature
        donor_wallet message donor_email).2.projects =
        replaceProject db.projects
          { project with raised_sol := project.raised_sol + amount_sol,
                         milestones :=
                           updateMilestones now (project.raised_sol + amount_sol)
                             project.milestones } ∧
      (recordDonation cfg now cu db project_id amount_sol project reward_tier tx_signature
        donor_wallet message donor_email).2.donations = db.donations ++ [d] := by
  exact ⟨rfl, _, rfl, rfl, rfl⟩

theorem pair_eq_fail {resp : DonationResponse} {db db2 : DonationDB} {s : Nat}
    {e : Option String}
    (hv : ((⟨s, false, e⟩ : DonationResponse), db) = (resp, db2)) :
    resp.ok = false ∧ db2 = db := by
  injection hv with h1 h2
  exact ⟨by rw [← h1], h2.symm⟩

theorem checkRewardTier_error_ok {db : DonationDB} {project_id : Nat} {amount_sol : ℚ}
    {reward_tier_id : Option Nat} {donor_email : Option String} {resp : DonationResponse}
    (h : checkRewardTier db project_id amount_sol reward_tier_id donor_email =
      Except.error resp) : resp.ok = false := by
  unfold checkRewardTier at h
  split at h
  · split at h
    · injection h with h1; rw [← h1]
    · split at h
      · injection h with h1; rw [← h1]
      · split at h
        · injection h with h1; rw [← h1]
        · split at h
          · injection h with h1; rw [← h1]
          · split at h
            · injection h with h1; rw [← h1]
            · split at h
              · injection h with h1; rw [← h1]
              · cases h
  · cases h

theorem verify_donation_struct (cfg : DonationConfig) (now : Nat) (rpc : Nat → Option SolTx)
    (cu : Option Nat) (db : DonationDB) (req : DonationRequest) (resp : DonationResponse)
    (db2 : DonationDB) (hv : verify_donation cfg now rpc cu db req = (resp, db2)) :
    (resp.ok = false ∧ db2 = db) ∨
    (resp.ok = true ∧
     ∃ project_id amount project d,
       req.project_id = some project_id ∧
       req.amount_sol = some amount ∧
       db.projects.find? (fun p => p.id == project_id) = some project ∧
       project.is_active now = true ∧
       (db.donations.find? (fun x => x.tx_signature == stripString req.tx_signature)).isSome
         = false ∧
       d.tx_signature = stripString req.tx_signature ∧
       db2.projects =
         replaceProject db.projects
           { project with raised_sol := project.raised_sol + amount,
                          milestones :=
                            updateMilestones now (project.raised_sol + amount)
                              project.milestones } ∧
       db2.donations = db.donations ++ [d]) := by
  simp only [verify_donation] at hv
  split at hv
  · left; exact pair_eq_fail hv
  · split at hv
    · left; exact pair_eq_fail hv
    · split at hv
      case _ project_id amount heq1 heq2 =>
        split at hv
        · left; exact pair_eq_fail hv
        case _ project hfind =>
          split at hv
          · left; exact pair_eq_fail hv
          case _ hactive =>
            split at hv
            · left; exact pair_eq_fail hv
            case _ hdup =>
              split at hv
              · left; exact pair_eq_fail hv
              case _ hverify =>
                split at hv
                case _ r herr =>
                  left
                  injection hv with h1 h2
                  exact ⟨by rw [← h1]; exact checkRewardTier_error_ok herr, h2.symm⟩
                case _ tier htier =>
                  right
                  have hshape := recordDonation_shape cfg now cu db project_id amount project
                    tier (stripString req.tx_signature) (stripString req.donor_wallet)
                    (stripString req.message) (parsedEmail req.donor_email)
                  rw [hv] at hshape
                  obtain ⟨hok, d, hd, hp, hdon⟩ := hshape
                  refine ⟨hok, project_id, amount, project, d, heq1, heq2, hfind, ?_, ?_, hd, hp, hdon⟩
                  · revert hactive
                    cases Project.is_active now project <;> simp
                  · revert hdup
                    cases (db.donations.find? (fun x => x.tx_signature == stripString req.tx_signature)).isSome <;> simp
      · left; exact pair_eq_fail hv

/-- Replacing the mutated project row commutes with project lookup: the
lookup finds the replacement exactly when the row it used to find carries the
replaced id. -/
theorem find?_replaceProject (pid : Nat) (q : Project) :
    ∀ (l : List Project) (p : Project),
      l.find? (fun x => x.id == pid) = some p →
      (replaceProject l q).find? (fun x => x.id == pid) =
        some (if p.id == q.id then q else p)
  | [], p, h => by simp [List.find?] at h
  | x :: rest, p, h => by
    simp only [replaceProject, List.map]
    by_cases hx : (x.id == pid) = true
    · have hp : p = x := by
        simp only [List.find?, hx] at h
        exact (Option.some.inj h).symm
      subst hp
      by_cases hq : (p.id == q.id) = true
      · have h1 : (q.id == pid) = true := by
          rw [beq_iff_eq] at hx hq ⊢
          rw [← hq]; exact hx
        simp only [List.find?, if_pos hq, h1, if_pos hq]
      · simp only [List.find?, if_neg hq, hx]
    · have hx2 : (x.id == pid) = false := by
        cases hxx : (x.id == pid)
        · rfl
        · exact absurd hxx hx
      have hrest : rest.find? (fun x => x.id == pid) = some p := by
        simpa only [List.find?, hx2] using h
      have ih := find?_replaceProject pid q rest p hrest
      by_cases hq : (x.id == q.id) = true
      · have h1 : (q.id == pid) = false := by
          cases hqq : (q.id == pid)
          · rfl
          · exfalso
            rw [beq_iff_eq] at hqq hq
            exact absurd (by rw [beq_iff_eq, hq, hqq]) hx
        simp only [List.find?, if_pos hq, h1]
        simpa [replaceProject] using ih
      · simp only [List.find?, if_neg hq, hx2]
        simpa [replaceProject] using ih

/-- Reflexivity of the milestone-flag monotonicity relation. -/
theorem milestoneFlagsMono_refl (ms : List Milestone) : MilestoneFlagsMono ms ms :=
  List.forall₂_same.mpr (fun _ _ h => h)

/-- Transitivity of the milestone-flag monotonicity relation. -/
theorem milestoneFlagsMono_trans {a b c : List Milestone}
    (h1 : MilestoneFlagsMono a b) (h2 : MilestoneFlagsMono b c) : MilestoneFlagsMono a c := by
  induction h1 generalizing c with
  | nil => cases h2; exact List.Forall₂.nil
  | cons hr _ ih =>
    cases h2 with
    | cons hr2 hrest2 => exact List.Forall₂.cons (fun h => hr2 (hr h)) (ih hrest2)

/-- The milestone sweep never lowers a reached flag. -/
theorem updateMilestones_mono (now : Nat) (raised : ℚ) (ms : List Milestone) :
    MilestoneFlagsMono ms (updateMilestones now raised ms) := by
  unfold MilestoneFlagsMono updateMilestones
  rw [List.forall₂_map_right_iff, List.forall₂_same]
  intro m _ hreached
  simp [hreached]

/-- Pointwise characterization of the milestone sweep: a reached milestone is
untouched, an unreached one is marked reached and stamped exactly when the
raised amount covers its threshold, and is untouched otherwise. -/
theorem updateMilestones_spec (now : Nat) (raised : ℚ) (ms : List Milestone) :
    List.Forall₂ (fun m m2 =>
      (m.reached = true → m2 = m) ∧
      (m.reached = false → raised ≥ m.amount_sol →
        m2 = { m with reached := true, reached_at := some now }) ∧
      (m.reached = false → raised < m.amount_sol → m2 = m))
      ms (updateMilestones now raised ms) := by
  unfold updateMilestones
  rw [List.forall₂_map_right_iff, List.forall₂_same]
  intro m _
  refine ⟨fun h => by simp [h], fun h hge => by simp [h, hge], fun h hlt => by
    simp [h, not_le.mpr hlt]⟩

/-- Folding any sequence of submissions preserves uniqueness of donation
ledger signatures. -/
theorem submitAll_signature_unique (cfg : DonationConfig) :
    ∀ (subs : List Submission) (db : DonationDB),
      AtMostOnePerSignature db.donations →
      AtMostOnePerSignature (submitAll cfg db subs).donations
  | [], _, h => h
  | s :: rest, db, h => by
    simp only [submitAll, List.foldl]
    have hstep : AtMostOnePerSignature
        (verify_donation cfg s.now s.rpc s.current_user db s.req).2.donations := by
      rcases verify_donation_struct cfg s.now s.rpc s.current_user db s.req
          (verify_donation cfg s.now s.rpc s.current_user db s.req).1
          (verify_donation cfg s.now s.rpc s.current_user db s.req).2 rfl with
        ⟨-, hdb⟩ | ⟨-, pid, amt, proj, d, -, -, -, -, hdup, hd, -, hdon⟩
      · rw [hdb]; exact h
      · rw [hdon]
        unfold AtMostOnePerSignature at h ⊢
        rw [List.pairwise_append]
        refine ⟨h, by simp [List.Pairwise], ?_⟩
        intro a ha b hb
        simp only [List.mem_singleton] at hb
        subst hb
        rw [hd]
        intro hcontra
        have hsome : (db.donations.find?
            (fun x => x.tx_signature == stripString s.req.tx_signature)).isSome = true := by
          rw [List.find?_isSome]
          exact ⟨a, ha, by rw [beq_iff_eq]; exact hcontra⟩
        rw [hdup] at hsome
        cases hsome
    have := submitAll_signature_unique cfg rest
      ⟨(verify_donation cfg s.now s.rpc s.current_user db s.req).2.projects,
       (verify_donation cfg s.now s.rpc s.current_user db s.req).2.donations,
       (verify_donation cfg s.now s.rpc s.current_user db s.req).2.reward_tiers⟩ hstep
    simpa using this

/-- Folding any sequence of submissions only raises milestone flags: the
project row found before is still found after, with pointwise monotone
reached-flags. -/
theorem submitAll_milestones_mono (cfg : DonationConfig) :
    ∀ (subs : List Submission) (db : DonationDB) (pid : Nat) (p : Project),
      db.projects.find? (fun x => x.id == pid) = some p →
      ∃ q, (submitAll cfg db subs).projects.find? (fun x => x.id == pid) = some q ∧
        MilestoneFlagsMono p.milestones q.milestones
  | [], _, _, p, h => ⟨p, h, milestoneFlagsMono_refl _⟩
  | s :: rest, db, pid, p, h => by
    simp only [submitAll, List.foldl]
    obtain ⟨q1, hq1, hmono1⟩ :
        ∃ q1, (verify_donation cfg s.now s.rpc s.current_user db s.req).2.projects.find?
            (fun x => x.id == pid) = some q1 ∧ MilestoneFlagsMono p.milestones q1.milestones := by
      rcases verify_donation_struct cfg s.now s.rpc s.current_user db s.req
          (verify_donation cfg s.now s.rpc s.current_user db s.req).1
          (verify_donation cfg s.now s.rpc s.current_user db s.req).2 rfl with
        ⟨-, hdb⟩ | ⟨-, rpid, amt, proj, d, -, -, hfindr, -, -, -, hproj, -⟩
      · rw [hdb]; exact ⟨p, h, milestoneFlagsMono_refl _⟩
      · rw [hproj]
        have hrepl := find?_replaceProject pid
          { proj with raised_sol := proj.raised_sol + amt,
                      milestones := updateMilestones s.now (proj.raised_sol + amt)
                        proj.milestones } db.projects p h
        refine ⟨_, hrepl, ?_⟩
        by_cases hid : (p.id ==
            ({ proj with raised_sol := proj.raised_sol + amt,
                         milestones := updateMilestones s.now (proj.raised_sol + amt)
                           proj.milestones } : Project).id) = true
        · have hpid := List.find?_some h
          have hrpid := List.find?_some hfindr
          simp only at hpid hrpid
          have hpids : pid = rpid := by
            rw [beq_iff_eq] at hpid hrpid hid
            simp only at hid
            rw [← hpid, hid, hrpid]
          subst hpids
          have hpp : p = proj := by
            rw [h] at hfindr
            exact Option.some.inj hfindr
          subst hpp
          rw [if_pos hid]
          exact updateMilestones_mono s.now (p.raised_sol + amt) p.milestones
        · rw [if_neg hid]
          exact milestoneFlagsMono_refl _
    obtain ⟨q, hq, hmono2⟩ := submitAll_milestones_mono cfg rest
      ⟨(verify_donation cfg s.now s.rpc s.current_user db s.req).2.projects,
       (verify_donation cfg s.now s.rpc s.current_user db s.req).2.donations,
       (verify_donation cfg s.now s.rpc s.current_user db s.req).2.reward_tiers⟩ pid q1
      (by simpa using hq1)
    refine ⟨q, by simpa using hq, milestoneFlagsMono_trans hmono1 hmono2⟩

/-! ### Claim theorems -/

/-- Claim C2: for every fetched transaction, the verifier accepts exactly when
some instruction is a system transfer from the expected sender to the expected
recipient whose decimal amount is within `1e-6` of the expected amount; the
difference of exactly `1e-6` is accepted while `1e-6 + epsilon` (expecting `1.0`,
observing `1.000002`) is rejected; the first qualifying instruction is
accepted, and with no qualifying instruction the result is the
transfer-not-found failure. -/
theorem c2_transfer_scan_tolerance :
    (∀ (recipient : String) (amount : ℚ) (sender : String) (tx : SolTx),
      (evaluateTx recipient amount sender tx).success = true ↔
        tx.err = none ∧ ∃ ix ∈ tx.instructions, matchesTransfer sender recipient amount ix = true) ∧
    (∀ (sender recipient : String) (amount : ℚ) (instrs : List Instruction),
      scanInstructions sender recipient amount instrs =
        match instrs.find? (matchesTransfer sender recipient amount) with
        | some _ => ⟨true, none⟩
        | none => ⟨false, some "Transfer not found in transaction"⟩) ∧
    (∀ (sender recipient : String) (amount : ℚ) (ix : Instruction),
      matchesTransfer sender recipient amount ix = true ↔
        ix.program = "system" ∧ ix.ptype = "transfer" ∧ ix.source = sender ∧
          ix.destination = recipient ∧ |lamportsToSol ix.lamports - amount| ≤ tolerance) ∧
    matchesTransfer "S" "R" 1 ⟨"system", "transfer", "S", "R", 1000001000⟩ = true ∧
    matchesTransfer "S" "R" 1 ⟨"system", "transfer", "S", "R", 1000002000⟩ = false := by
  refine ⟨?_, ?_, matchesTransfer_iff, ?_, ?_⟩
  · intro recipient amount sender tx
    unfold evaluateTx
    by_cases herr : tx.err.isSome
    · simp only [if_pos herr]
      simp only [Option.isSome_iff_exists] at herr
      obtain ⟨e, he⟩ := herr
      simp [he]
    · simp only [if_neg herr]
      rw [scanInstructions_eq_find]
      constructor
      · intro h
        cases hfind : tx.instructions.find? (matchesTransfer sender recipient amount) with
        | none => rw [hfind] at h; simp at h
        | some ix =>
          refine ⟨Option.not_isSome_iff_eq_none.mp herr, ix, List.mem_of_find?_eq_some hfind,
            List.find?_some hfind⟩
      · rintro ⟨-, ix, hmem, hmatch⟩
        have : (tx.instructions.find? (matchesTransfer sender recipient amount)).isSome := by
          rw [List.find?_isSome]
          exact ⟨ix, hmem, hmatch⟩
        obtain ⟨ix2, hix2⟩ := Option.isSome_iff_exists.mp this
        rw [hix2]
  · intro sender recipient amount instrs
    exact scanInstructions_eq_find sender recipient amount instrs
  · norm_num [matchesTransfer, lamportsToSol, tolerance, abs_le, lt_abs]
  · norm_num [matchesTransfer, lamportsToSol, tolerance, abs_le, lt_abs]

/-- Witness for C2: a fetched transaction carrying a matching transfer with a
boundary amount difference of exactly `1e-6` is accepted. -/
theorem c2_transfer_scan_tolerance_witness :
    (evaluateTx "R" 1 "S" ⟨none, [⟨"system", "transfer", "S", "R", 1000001000⟩]⟩).success = true := by
  refine (c2_transfer_scan_tolerance.1 "R" 1 "S" ⟨none, [⟨"system", "transfer", "S", "R", 1000001000⟩]⟩).mpr
    ⟨rfl, ⟨"system", "transfer", "S", "R", 1000001000⟩, ?_, ?_⟩
  · simp
  · exact c2_transfer_scan_tolerance.2.2.2.1

/-- Claim C4: the verifier polls `get_transaction` at most 10 times with a
fixed 2-second inter-poll delay, stops at the first non-null result, returns
the distinct not-found-after-retries failure when every poll is null, and
fails with the transaction-failed error on a fetched transaction whose
on-chain execution recorded an error, independently of its instruction
list. -/
theorem c4_poll_budget_and_errors (rpc : Nat → Option SolTx) :
    (pollForTx rpc).2.1 ≤ 10 ∧
    (pollForTx rpc).2.2 = retryDelay * ((pollForTx rpc).2.1 - 1) ∧
    (∀ i tx, i < 10 → rpc i = some tx → (∀ j, j < i → rpc j = none) →
      pollForTx rpc = (some tx, i + 1, retryDelay * i)) ∧
    ((∀ i, i < 10 → rpc i = none) →
      pollForTx rpc = (none, 10, retryDelay * 9) ∧
      ∀ (recipient : String) (amount : ℚ) (sender : String),
        verify_transaction rpc recipient amount sender =
          ⟨false, some "Transaction not found or not confirmed after retries"⟩) ∧
    (∀ tx : SolTx, tx.err.isSome →
      ∀ (instrs : List Instruction) (recipient : String) (amount : ℚ) (sender : String),
        evaluateTx recipient amount sender { tx with instructions := instrs } =
          ⟨false, some "Transaction failed"⟩) := by
  refine ⟨?_, ?_, ?_, ?_, ?_⟩
  · have := pollLoop_polls_le rpc maxRetries 0
    simpa [pollForTx, maxRetries] using this
  · have := pollLoop_slept rpc maxRetries 0 (by norm_num [maxRetries])
    simpa [pollForTx] using this
  · intro i tx hi hfound hnone
    have := pollLoop_first_found rpc maxRetries 0 i tx (by simpa [maxRetries] using hi)
      (by simpa using hfound) (fun j hj => by simpa using hnone j hj)
    simpa [pollForTx] using this
  · intro hall
    have hpoll : pollForTx rpc = (none, 10, retryDelay * 9) := by
      have := pollLoop_all_none rpc maxRetries 0 (by norm_num [maxRetries])
        (fun j hj => by simpa using hall j (by simpa [maxRetries] using hj))
      simpa [pollForTx, maxRetries] using this
    refine ⟨hpoll, fun recipient amount sender => ?_⟩
    simp [verify_transaction, hpoll]
  · intro tx herr instrs recipient amount sender
    simp [evaluateTx, herr]

/-- Witness for C4: with an RPC endpoint whose first two responses are null
and whose third carries a failed transaction, the loop polls three times,
sleeps four seconds, and the verifier reports the transaction-failed
error. -/
theorem c4_poll_budget_and_errors_witness :
    pollForTx (fun i => if i = 2 then some ⟨some "err", []⟩ else none) =
      (some ⟨some "err", []⟩, 3, retryDelay * 2) ∧
    evaluateTx "R" 1 "S" ⟨some "err", [⟨"system", "transfer", "S", "R", 1000000000⟩]⟩ =
      ⟨false, some "Transaction failed"⟩ := by
  constructor
  · exact (c4_poll_budget_and_errors (fun i => if i = 2 then some ⟨some "err", []⟩ else none)).2.2.1
      2 ⟨some "err", []⟩ (by decide) (by decide) (fun j hj => by
        interval_cases j <;> decide)
  · exact (c4_poll_budget_and_errors (fun _ => none)).2.2.2.2 ⟨some "err", []⟩ (by decide)
      [⟨"system", "transfer", "S", "R", 1000000000⟩] "R" 1 "S"

/-- Claim C9: the signature verifier is total and bivalent — it is a plain
boolean function of its inputs (every exception of the original body is
converted to `false`, and it performs no writes); it decodes the signature by
attempting base58 first and falling back to base64, and it returns `true`
exactly when the public key decodes, the signature decodes, and Ed25519
verification accepts — so any decoding or verification failure yields
`false`. -/
theorem c9_signature_verifier_total (c : CryptoPrims) (wallet message signature : String) :
    (verify_wallet_signature c wallet message signature = true ↔
      ∃ pk sig, c.b58decode wallet = some pk ∧ decodeSignatureBytes c signature = some sig ∧
        c.ed25519Verify pk (utf8Bytes message) sig = Except.ok ()) ∧
    (∀ bytes, c.b58decode signature = some bytes →
      decodeSignatureBytes c signature = some bytes) ∧
    (c.b58decode signature = none →
      decodeSignatureBytes c signature = c.b64decode signature) ∧
    (c.b58decode wallet = none →
      verify_wallet_signature c wallet message signature = false) ∧
    (decodeSignatureBytes c signature = none →
      verify_wallet_signature c wallet message signature = false) ∧
    (∀ pk sig e, c.b58decode wallet = some pk → decodeSignatureBytes c signature = some sig →
      c.ed25519Verify pk (utf8Bytes message) sig = Except.error e →
      verify_wallet_signature c wallet message signature = false) := by
  refine ⟨?_, ?_, ?_, ?_, ?_, ?_⟩
  · unfold verify_wallet_signature
    cases hpk : c.b58decode wallet with
    | none => simp [hpk]
    | some pk =>
      cases hsig : decodeSignatureBytes c signature with
      | none => simp
      | some sig =>
        cases hed : c.ed25519Verify pk (utf8Bytes message) sig with
        | ok u => cases u; simp [hed]
        | error e => simp [hed]
  · intro bytes h
    simp [decodeSignatureBytes, h]
  · intro h
    cases h2 : c.b64decode signature <;> simp [decodeSignatureBytes, h, h2]
  · intro h
    simp [verify_wallet_signature, h]
  · intro h
    unfold verify_wallet_signature
    cases hpk : c.b58decode wallet <;> simp [h]
  · intro pk sig e hpk hsig hed
    simp [verify_wallet_signature, hpk, hsig, hed]

/-- Witness for C9: a concrete primitive set on which base58 decoding of the
signature fails, base64 decoding succeeds, and verification accepts, makes
the verifier return `true`; flipping the primitive to reject makes it return
`false`. -/
theorem c9_signature_verifier_total_witness :
    verify_wallet_signature
      ⟨fun s => if s = "sig64" then none else some [7], fun _ => some [9],
       fun _ _ _ => Except.ok ()⟩ "walletA" "hello" "sig64" = true ∧
    verify_wallet_signature
      ⟨fun s => if s = "sig64" then none else some [7], fun _ => some [9],
       fun _ _ _ => Except.error "BadSignatureError"⟩ "walletA" "hello" "sig64" = false := by
  constructor
  · exact (c9_signature_verifier_total
      ⟨fun s => if s = "sig64" then none else some [7], fun _ => some [9],
       fun _ _ _ => Except.ok ()⟩ "walletA" "hello" "sig64").1.mpr
      ⟨[7], [9], by decide, by decide, rfl⟩
  · exact (c9_signature_verifier_total
      ⟨fun s => if s = "sig64" then none else some [7], fun _ => some [9],
       fun _ _ _ => Except.error "BadSignatureError"⟩ "walletA" "hello" "sig64").2.2.2.2.2
      [7] [9] "BadSignatureError" (by decide) (by decide) rfl

/-- Claim C5: fee arithmetic is exact decimal (here rational) arithmetic:
`platform_fee = amount * fee_percent / 100` and
`net_amount = amount - platform_fee`, both in `Donation.calculate_fee` and in
the payout row created by `process_single_payout`; for `total_raised = 100`
and `fee_percent = 2.5` the fee is exactly `2.5` and the net amount exactly
`97.5`. -/
theorem c5_fee_arithmetic_exact :
    (∀ (d : Donation) (fee_percent : ℚ),
      (d.calculate_fee fee_percent).platform_fee = some (d.amount_sol * fee_percent / 100) ∧
      (d.calculate_fee fee_percent).amount_sol = d.amount_sol) ∧
    (∀ (cfg : PayoutConfig) (send : String → ℚ → SendResult) (now : Nat) (p : Project)
        (payout : Payout),
      (process_single_payout cfg send now p).payout = some payout →
        payout.total_raised = p.raised_sol ∧
        payout.platform_fee = p.raised_sol * cfg.platform_fee_percent / 100 ∧
        payout.net_amount = p.raised_sol - p.raised_sol * cfg.platform_fee_percent / 100) ∧
    (process_single_payout ⟨5/2, "secret"⟩ sendAlways 0 feeProject).payout.map Payout.platform_fee
      = some (5/2) ∧
    (process_single_payout ⟨5/2, "secret"⟩ sendAlways 0 feeProject).payout.map Payout.net_amount
      = some (195/2) := by
  refine ⟨?_, ?_, ?_, ?_⟩
  · intro d fee_percent
    exact ⟨rfl, rfl⟩
  · intro cfg send now p payout h
    simp only [process_single_payout] at h
    split at h
    · simp at h
    · split at h
      · simp at h
      · split at h
        · simp at h
        · split at h <;> simp only [Option.some.injEq] at h <;> subst h <;>
            exact ⟨rfl, rfl, rfl⟩
  · simp only [process_single_payout, feeProject, sendAlways]
    norm_num +decide [beq_iff_eq]
  · simp only [process_single_payout, feeProject, sendAlways]
    norm_num +decide [beq_iff_eq]

/-- Amended claim C7: settlement rejects any campaign whose computed
`net_amount` is strictly below the dust threshold of 0.001 units — it returns
unsuccessfully with no payout row, no ledger transfer, and the project left
untouched (in particular not marked failed); a net amount of exactly 0.001
is settled, not rejected. -/
theorem c7_dust_rejection_strict (cfg : PayoutConfig) (send : String → ℚ → SendResult)
    (now : Nat) (p : Project)
    (h : p.raised_sol - p.raised_sol * cfg.platform_fee_percent / 100 < 1 / 1000) :
    process_single_payout cfg send now p = ⟨false, p, none, []⟩ := by
  unfold process_single_payout
  split
  · rfl
  · rw [if_pos h]

/-- Witness for the amended C7: a campaign with `raised = 0.0005` at a 2.5%
fee has net amount below 0.001 and is rejected without side effects. -/
theorem c7_dust_rejection_strict_witness :
    process_single_payout ⟨5/2, "secret"⟩ sendAlways 0 tinyProject =
      ⟨false, tinyProject, none, []⟩ :=
  c7_dust_rejection_strict ⟨5/2, "secret"⟩ sendAlways 0 tinyProject
    (by norm_num [tinyProject])

/-- Counterexample to C7 as stated: `dustProject` has
`net_amount = 0.001` exactly, which does not exceed the dust threshold of
0.001, yet `process_single_payout` proceeds — it returns successfully,
creates a payout row, submits the ledger transfer of 0.001 to the creator
and marks the campaign completed. -/
theorem c7_dust_rejection_counterexample :
    dustProject.raised_sol - dustProject.raised_sol * (20 : ℚ) / 100 = 1 / 1000 ∧
    (process_single_payout ⟨20, "s"⟩ (fun _ _ => SendResult.success "SIG") 5 dustProject).ok
      = true ∧
    (process_single_payout ⟨20, "s"⟩ (fun _ _ => SendResult.success "SIG") 5 dustProject).payout.isSome
      = true ∧
    (process_single_payout ⟨20, "s"⟩ (fun _ _ => SendResult.success "SIG") 5 dustProject).transfers
      = [("W", 1 / 1000)] ∧
    (process_single_payout ⟨20, "s"⟩ (fun _ _ => SendResult.success "SIG") 5 dustProject).project.payout_status
      = "completed" := by
  refine ⟨by norm_num [dustProject], ?_, ?_, ?_, ?_⟩ <;>
    · simp only [process_single_payout, dustProject]
      norm_num +decide [beq_iff_eq]

/-- Claim C6: `retry_failed_payout` on a nonexistent campaign or on one whose
`payout_status` is not `failed` (or whose creator lacks a payout wallet)
returns a structured error with no ledger transfer, no payout row and the
project table unchanged; only with `payout_status = failed` and a payout
wallet does it reset the status to `pending` and re-invoke
`process_single_payout`. -/
theorem c6_retry_gating (cfg : PayoutConfig) (send : String → ℚ → SendResult)
    (now : Nat) (projects : List Project) (project_id : Nat) :
    (projects.find? (fun p => p.id == project_id) = none →
      retry_failed_payout cfg send now projects project_id =
        ⟨false, none, some "Project not found", projects, none, []⟩) ∧
    (∀ p, projects.find? (fun p => p.id == project_id) = some p →
      p.payout_status ≠ "failed" →
      retry_failed_payout cfg send now projects project_id =
        ⟨false, none, some "Payout is not in failed status", projects, none, []⟩) ∧
    (∀ p, projects.find? (fun p => p.id == project_id) = some p →
      p.payout_status = "failed" → walletTruthy p.creator_wallet = false →
      retry_failed_payout cfg send now projects project_id =
        ⟨false, none, some "Creator has no wallet address set", projects, none, []⟩) ∧
    (∀ p, projects.find? (fun p => p.id == project_id) = some p →
      p.payout_status = "failed" → walletTruthy p.creator_wallet = true →
      (retry_failed_payout cfg send now projects project_id).ok =
        (process_single_payout cfg send now { p with payout_status := "pending" }).ok ∧
      (retry_failed_payout cfg send now projects project_id).payout =
        (process_single_payout cfg send now { p with payout_status := "pending" }).payout ∧
      (retry_failed_payout cfg send now projects project_id).transfers =
        (process_single_payout cfg send now { p with payout_status := "pending" }).transfers ∧
      (retry_failed_payout cfg send now projects project_id).projects =
        replaceProject projects
          (process_single_payout cfg send now { p with payout_status := "pending" }).project ∧
      ((process_single_payout cfg send now { p with payout_status := "pending" }).ok = true →
        (retry_failed_payout cfg send now projects project_id).message =
          some "Payout sent successfully") ∧
      ((process_single_payout cfg send now { p with payout_status := "pending" }).ok = false →
        (retry_failed_payout cfg send now projects project_id).error =
          some "Payout failed")) := by
  refine ⟨?_, ?_, ?_, ?_⟩
  · intro h
    simp [retry_failed_payout, h]
  · intro p hfind hstatus
    simp [retry_failed_payout, hfind, hstatus]
  · intro p hfind hstatus hwallet
    simp [retry_failed_payout, hfind, hstatus, hwallet]
  · intro p hfind hstatus hwallet
    have h1 : (p.payout_status != "failed") = false := by simp [hstatus]
    simp only [retry_failed_payout, hfind, h1, hwallet, Bool.not_true, Bool.not_false,
      Bool.false_eq_true, if_false]
    by_cases hok : (process_single_payout cfg send now { p with payout_status := "pending" }).ok = true
    · simp [hok]
    · simp only [Bool.not_eq_true] at hok
      simp [hok]

/-- Witness for C6: retrying a campaign whose payout is still pending returns
the not-in-failed-status error and leaves everything unchanged; retrying a
failed campaign with a wallet re-invokes settlement successfully. -/
theorem c6_retry_gating_witness :
    retry_failed_payout ⟨5/2, "secret"⟩ sendAlways 0 [feeProject] 7 =
      ⟨false, none, some "Payout is not in failed status", [feeProject], none, []⟩ ∧
    (retry_failed_payout ⟨5/2, "secret"⟩ sendAlways 0 [failedProject] 3).ok =
      (process_single_payout ⟨5/2, "secret"⟩ sendAlways 0
        { failedProject with payout_status := "pending" }).ok := by
  constructor
  · exact (c6_retry_gating ⟨5/2, "secret"⟩ sendAlways 0 [feeProject] 7).2.1 feeProject
      (by decide) (by decide)
  · exact ((c6_retry_gating ⟨5/2, "secret"⟩ sendAlways 0 [failedProject] 3).2.2.2 failedProject
      (by decide) (by decide) (by decide)).1

/-- Marking the first matching nonce row used commutes with the lookup: the
row the route found is exactly the row that ends up marked. -/
theorem findNonce_markFirstUsed (a t : String) :
    ∀ (l : List WalletNonce) (n : WalletNonce), findNonce a t l = some n →
      findNonce a t (markFirstUsed a t l) = some n.mark_used
  | [], n, h => by simp [findNonce] at h
  | x :: rest, n, h => by
    by_cases hx : (x.wallet_address == a && x.nonce == t) = true
    · have hn : n = x := by
        simp only [findNonce, List.find?, hx] at h
        exact (Option.some.inj h).symm
      subst hn
      simp [findNonce, markFirstUsed, List.find?, hx, WalletNonce.mark_used]
    · have hrest : findNonce a t rest = some n := by
        simpa only [findNonce, List.find?, hx] using h
      have ih := findNonce_markFirstUsed a t rest n hrest
      simp only [markFirstUsed, if_neg hx]
      simpa only [findNonce, List.find?, hx] using ih

/-- Case analysis of the wallet-verify route: either the call succeeds — the
nonce was found, valid, the signature verified, and the database update is
the used-mark plus the find-or-create of the user — or it fails and the
database is untouched. -/
theorem wallet_verify_invalid_nonce (c : CryptoPrims) (now : Nat) (db : AuthDB)
    (req : WalletVerifyRequest)
    (hempty : (stripString req.wallet_address == "" || req.signature == "" || req.nonce == "") = false)
    (h : ∀ n, findNonce (stripString req.wallet_address) req.nonce db.nonces = some n →
      n.is_valid now = false) :
    wallet_verify c now db req = (⟨false, some "Invalid or expired nonce"⟩, db) := by
  unfold wallet_verify
  rw [if_neg (by rw [hempty]; exact Bool.false_ne_true)]
  cases hfind : findNonce (stripString req.wallet_address) req.nonce db.nonces with
  | none => rfl
  | some n =>
    have hv := h n hfind
    simp [hv]

theorem wallet_verify_invalid_sig (c : CryptoPrims) (now : Nat) (db : AuthDB)
    (req : WalletVerifyRequest) (n : WalletNonce)
    (hempty : (stripString req.wallet_address == "" || req.signature == "" || req.nonce == "") = false)
    (hfind : findNonce (stripString req.wallet_address) req.nonce db.nonces = some n)
    (hvalid : n.is_valid now = true)
    (hsig : verify_wallet_signature c (stripString req.wallet_address) n.message_to_sign
      req.signature = false) :
    wallet_verify c now db req = (⟨false, some "Invalid signature"⟩, db) := by
  unfold wallet_verify
  rw [if_neg (by rw [hempty]; exact Bool.false_ne_true)]
  simp [hfind, hvalid, hsig]

theorem wallet_verify_cases (c : CryptoPrims) (now : Nat) (db : AuthDB)
    (req : WalletVerifyRequest) :
    (∃ n, findNonce (stripString req.wallet_address) req.nonce db.nonces = some n ∧
      n.is_valid now = true ∧
      verify_wallet_signature c (stripString req.wallet_address) n.message_to_sign req.signature = true ∧
      (stripString req.wallet_address == "" || req.signature == "" || req.nonce == "") = false ∧
      wallet_verify c now db req =
        (⟨true, none⟩,
         ⟨markFirstUsed (stripString req.wallet_address) req.nonce db.nonces,
          findOrCreateUser (stripString req.wallet_address) db.users⟩)) ∨
    ((wallet_verify c now db req).1.success = false ∧ (wallet_verify c now db req).2 = db) := by
  by_cases hempty :
      (stripString req.wallet_address == "" || req.signature == "" || req.nonce == "") = true
  · right
    unfold wallet_verify
    rw [if_pos hempty]
    exact ⟨rfl, rfl⟩
  · have hempty2 :
        (stripString req.wallet_address == "" || req.signature == "" || req.nonce == "") = false := by
      revert hempty
      cases stripString req.wallet_address == "" || req.signature == "" || req.nonce == "" <;> simp
    cases hfind : findNonce (stripString req.wallet_address) req.nonce db.nonces with
    | none =>
      right
      rw [wallet_verify_invalid_nonce c now db req hempty2
        (fun n hn => by rw [hfind] at hn; cases hn)]
      exact ⟨rfl, rfl⟩
    | some n =>
      by_cases hvalid : n.is_valid now = true
      · by_cases hsig : verify_wallet_signature c (stripString req.wallet_address) n.message_to_sign
            req.signature = true
        · left
          refine ⟨n, rfl, hvalid, hsig, hempty2, ?_⟩
          unfold wallet_verify
          rw [if_neg (by rw [hempty2]; exact Bool.false_ne_true)]
          simp [hfind, hvalid, hsig]
        · right
          have hsig2 : verify_wallet_signature c (stripString req.wallet_address) n.message_to_sign
              req.signature = false := by
            revert hsig
            cases verify_wallet_signature c (stripString req.wallet_address) n.message_to_sign
              req.signature <;> simp
          rw [wallet_verify_invalid_sig c now db req n hempty2 hfind hvalid hsig2]
          exact ⟨rfl, rfl⟩
      · right
        have hvalid2 : n.is_valid now = false := by
          revert hvalid
          cases n.is_valid now <;> simp
        rw [wallet_verify_invalid_nonce c now db req hempty2
          (fun m hm => by rw [hfind] at hm; cases Option.some.inj hm; exact hvalid2)]
        exact ⟨rfl, rfl⟩

/-- Claim C3: a consumed or expired challenge never authenticates — the
wallet-verify route succeeds only when the nonce row matching the wallet
address and token exists, is unused, and expires in the future; on success
the row is marked used, so consuming the same token a second time fails with
the invalid-or-expired error regardless of the crypto primitives (hence of
signature validity) presented. -/
theorem c3_challenge_single_use (c : CryptoPrims) (now : Nat) (db : AuthDB)
    (req : WalletVerifyRequest) :
    ((wallet_verify c now db req).1.success = true →
      ∃ n, findNonce (stripString req.wallet_address) req.nonce db.nonces = some n ∧
        n.used = false ∧ now < n.expires_at) ∧
    (∀ n, findNonce (stripString req.wallet_address) req.nonce db.nonces = some n →
      (n.used = true ∨ n.expires_at ≤ now) →
      (wallet_verify c now db req).1.success = false) ∧
    ((wallet_verify c now db req).1.success = true →
      ∀ (c2 : CryptoPrims) (now2 : Nat),
        (wallet_verify c2 now2 (wallet_verify c now db req).2 req).1 =
          ⟨false, some "Invalid or expired nonce"⟩) := by
  refine ⟨?_, ?_, ?_⟩
  · intro hs
    rcases wallet_verify_cases c now db req with ⟨n, hfind, hvalid, -, -, -⟩ | ⟨hf, -⟩
    · refine ⟨n, hfind, ?_, ?_⟩
      · simp only [WalletNonce.is_valid, Bool.and_eq_true, Bool.not_eq_true'] at hvalid
        exact hvalid.1
      · simp only [WalletNonce.is_valid, Bool.and_eq_true, decide_eq_true_iff] at hvalid
        exact hvalid.2
    · rw [hs] at hf; cases hf
  · intro n hfind hbad
    rcases wallet_verify_cases c now db req with ⟨m, hfindm, hvalid, -, -, -⟩ | ⟨hf, -⟩
    · rw [hfind] at hfindm
      cases Option.some.inj hfindm
      simp only [WalletNonce.is_valid, Bool.and_eq_true, Bool.not_eq_true',
        decide_eq_true_iff] at hvalid
      rcases hbad with hused | hexp
      · rw [hvalid.1] at hused; cases hused
      · omega
    · exact hf
  · intro hs c2 now2
    rcases wallet_verify_cases c now db req with
      ⟨n, hfind, -, -, hempty, heq⟩ | ⟨hf, -⟩
    · rw [heq]
      have hfind2 := findNonce_markFirstUsed (stripString req.wallet_address) req.nonce db.nonces n hfind
      rw [wallet_verify_invalid_nonce c2 now2
        ⟨markFirstUsed (stripString req.wallet_address) req.nonce db.nonces,
         findOrCreateUser (stripString req.wallet_address) db.users⟩ req hempty
        (fun m hm => by
          rw [hfind2] at hm
          cases Option.some.inj hm
          simp [WalletNonce.mark_used, WalletNonce.is_valid])]
    · rw [hs] at hf; cases hf

/-- Witness for C3: consuming the fixture nonce succeeds once, and a second
consumption of the same token fails with the invalid-or-expired error even
with an always-accepting verifier. -/
theorem c3_challenge_single_use_witness :
    (wallet_verify acceptPrims 1 authDBFixture verifyReqFixture).1.success = true ∧
    (wallet_verify acceptPrims 2
        (wallet_verify acceptPrims 1 authDBFixture verifyReqFixture).2 verifyReqFixture).1 =
      ⟨false, some "Invalid or expired nonce"⟩ :=
  ⟨by decide,
   (c3_challenge_single_use acceptPrims 1 authDBFixture verifyReqFixture).2.2 (by decide)
     acceptPrims 2⟩

/-- Claim C10: a wallet-verification attempt that fails leaves the database
untouched — in particular a signature-verification failure on a valid nonce
returns the invalid-signature error with the nonce still unconsumed and
every row unchanged, so the same challenge remains valid for a later
attempt; the nonce is marked used only after the signature check
succeeds. -/
theorem c10_failed_signature_keeps_nonce (c : CryptoPrims) (now : Nat) (db : AuthDB)
    (req : WalletVerifyRequest) :
    ((wallet_verify c now db req).1.success = false →
      (wallet_verify c now db req).2 = db) ∧
    (∀ n, (stripString req.wallet_address == "" || req.signature == "" || req.nonce == "") = false →
      findNonce (stripString req.wallet_address) req.nonce db.nonces = some n →
      n.is_valid now = true →
      verify_wallet_signature c (stripString req.wallet_address) n.message_to_sign req.signature = false →
      wallet_verify c now db req = (⟨false, some "Invalid signature"⟩, db)) ∧
    ((wallet_verify c now db req).1.success = true →
      ∃ n, findNonce (stripString req.wallet_address) req.nonce db.nonces = some n ∧
        verify_wallet_signature c (stripString req.wallet_address) n.message_to_sign req.signature = true) := by
  refine ⟨?_, ?_, ?_⟩
  · intro hfail
    rcases wallet_verify_cases c now db req with ⟨n, -, -, -, -, heq⟩ | ⟨-, hdb⟩
    · rw [heq] at hfail; cases hfail
    · exact hdb
  · intro n hempty hfind hvalid hsig
    exact wallet_verify_invalid_sig c now db req n hempty hfind hvalid hsig
  · intro hs
    rcases wallet_verify_cases c now db req with ⟨n, hfind, -, hsig, -, -⟩ | ⟨hf, -⟩
    · exact ⟨n, hfind, hsig⟩
    · rw [hs] at hf; cases hf

/-- Witness for C10: with an always-rejecting Ed25519 primitive, verifying
against the fixture nonce returns the invalid-signature error and leaves the
database exactly as it was. -/
theorem c10_failed_signature_keeps_nonce_witness :
    wallet_verify rejectPrims 1 authDBFixture verifyReqFixture =
      (⟨false, some "Invalid signature"⟩, authDBFixture) :=
  (c10_failed_signature_keeps_nonce rejectPrims 1 authDBFixture verifyReqFixture).2.1
    nonceFixture (by decide) (by decide) (by decide) (by decide)

/-- Claim C1: a donation-verification request whose ledger signature already
appears on an existing donation row fails without inserting a second row
(the database is untouched); when the request passes the earlier field,
project and activity checks, the failure is specifically the
duplicate-transaction error; and over any sequence of submissions at most
one donation row exists per `tx_signature`. -/
theorem c1_duplicate_signature_idempotent (cfg : DonationConfig) (now : Nat)
    (rpc : Nat → Option SolTx) (cu : Option Nat) (db : DonationDB) (req : DonationRequest) :
    ((∃ d ∈ db.donations, d.tx_signature = stripString req.tx_signature) →
      (verify_donation cfg now rpc cu db req).1.ok = false ∧
      (verify_donation cfg now rpc cu db req).2 = db) ∧
    (∀ project_id amount project,
      req.project_id = some project_id →
      req.amount_sol = some amount →
      requiredFieldsTruthy req.project_id (stripString req.tx_signature) req.amount_sol
        (stripString req.donor_wallet) = true →
      validate_sol_amount req.amount_sol = true →
      db.projects.find? (fun p => p.id == project_id) = some project →
      project.is_active now = true →
      (db.donations.find? (fun d => d.tx_signature == stripString req.tx_signature)).isSome
        = true →
      verify_donation cfg now rpc cu db req =
        (⟨400, false, some "Transaction already processed"⟩, db)) ∧
    (∀ subs : List Submission,
      AtMostOnePerSignature db.donations →
      AtMostOnePerSignature (submitAll cfg db subs).donations) := by
  refine ⟨?_, ?_, fun subs => submitAll_signature_unique cfg subs db⟩
  · rintro ⟨d0, hmem, hsig⟩
    rcases verify_donation_struct cfg now rpc cu db req
        (verify_donation cfg now rpc cu db req).1
        (verify_donation cfg now rpc cu db req).2 rfl with
      ⟨hok, hdb⟩ | ⟨-, pid, amt, proj, d, -, -, -, -, hdup, -, -, -⟩
    · exact ⟨hok, hdb⟩
    · exfalso
      have hsome : (db.donations.find?
          (fun x => x.tx_signature == stripString req.tx_signature)).isSome = true := by
        rw [List.find?_isSome]
        exact ⟨d0, hmem, by rw [beq_iff_eq]; exact hsig⟩
      rw [hdup] at hsome
      cases hsome
  · intro project_id amount project hpid hamt hreq hval hfind hactive hdup
    unfold verify_donation
    rw [hpid, hamt] at *
    simp [hreq, hval, hfind, hactive, hdup]

/-- Witness for C1: resubmitting the already-recorded signature `sig1`
against the fixture database fails and leaves the database unchanged. -/
theorem c1_duplicate_signature_idempotent_witness :
    (verify_donation msCfg 0 msSub1.rpc none dupDB msSub1.req).1.ok = false ∧
    (verify_donation msCfg 0 msSub1.rpc none dupDB msSub1.req).2 = dupDB :=
  (c1_duplicate_signature_idempotent msCfg 0 msSub1.rpc none dupDB msSub1.req).1
    ⟨dupDonation, by simp [dupDB], by decide⟩

/-- Amended claim C8: every operation that evaluates milestones only sets
`reached` from false to true (stamping `reached_at`) when the raised amount
covers the threshold, never touching an already-reached milestone and never
resetting one; over any sequence of submissions the flags are pointwise
monotone.  For milestones at 10 and 20 units and contribution amounts
[5, 6, 12], the 10-unit milestone is reached after the second contribution
(5 + 6 = 11 ≥ 10), not the third, and the 20-unit milestone is reached after
the third (23 ≥ 20) rather than remaining unreached. -/
theorem c8_milestone_monotonic :
    (∀ (now : Nat) (raised : ℚ) (ms : List Milestone),
      List.Forall₂ (fun m m2 =>
        (m.reached = true → m2 = m) ∧
        (m.reached = false → raised ≥ m.amount_sol →
          m2 = { m with reached := true, reached_at := some now }) ∧
        (m.reached = false → raised < m.amount_sol → m2 = m))
        ms (updateMilestones now raised ms)) ∧
    (∀ (now : Nat) (p : Project),
      (Project.check_milestones now p).milestones =
        updateMilestones now p.raised_sol p.milestones) ∧
    (∀ (cfg : DonationConfig) (subs : List Submission) (db : DonationDB) (pid : Nat)
        (p : Project),
      db.projects.find? (fun x => x.id == pid) = some p →
      ∃ q, (submitAll cfg db subs).projects.find? (fun x => x.id == pid) = some q ∧
        MilestoneFlagsMono p.milestones q.milestones) ∧
    milestoneFlags (submitAll msCfg msDB [msSub1]) = some [false, false] ∧
    milestoneFlags (submitAll msCfg msDB [msSub1, msSub2]) = some [true, false] ∧
    milestoneFlags (submitAll msCfg msDB [msSub1, msSub2, msSub3]) = some [true, true] := by
  refine ⟨updateMilestones_spec, fun now p => rfl,
    fun cfg subs db pid p h => submitAll_milestones_mono cfg subs db pid p h, ?_, ?_, ?_⟩ <;>
  norm_num +decide [submitAll, List.foldl, msSub1, msSub2, msSub3, donationSub, msDB, msCfg,
    msProject, donationTx,
    verify_donation, checkRewardTier, recordDonation, verify_transaction, pollForTx, pollLoop,
    maxRetries, evaluateTx,
    scanInstructions, matchesTransfer, lamportsToSol, tolerance, requiredFieldsTruthy,
    validate_sol_amount, parsedEmail, tierIdTruthy, emailTruthy, stripString, dropLeadingSpaces,
    isSpaceChar, Project.is_active, updateMilestones, replaceProject, milestoneFlags,
    Donation.calculate_fee, List.find?, List.map, beq_iff_eq, abs_le, lt_abs]

/-- Witness for the amended C8: the fixture project is found after one
submission with pointwise monotone milestone flags. -/
theorem c8_milestone_monotonic_witness :
    ∃ q, (submitAll msCfg msDB [msSub1]).projects.find? (fun x => x.id == 1) = some q ∧
      MilestoneFlagsMono msProject.milestones q.milestones :=
  c8_milestone_monotonic.2.2.1 msCfg [msSub1] msDB 1 msProject (by decide)

/-- Counterexample to C8 as stated: with milestones at 10 and 20 and
contributions [5, 6, 12], the 10-unit milestone is already reached after the
second contribution (the claim says it is reached exactly after the third),
and the 20-unit milestone is reached after the third contribution (the claim
says it remains unreached). -/
theorem c8_milestone_counterexample :
    milestoneFlags (submitAll msCfg msDB [msSub1, msSub2]) = some [true, false] ∧
    milestoneFlags (submitAll msCfg msDB [msSub1, msSub2, msSub3]) = some [true, true] := by
  constructor <;>
  norm_num +decide [submitAll, List.foldl, msSub1, msSub2, msSub3, donationSub, msDB, msCfg,
    msProject, donationTx,
    verify_donation, checkRewardTier, recordDonation, verify_transaction, pollForTx, pollLoop,
    maxRetries, evaluateTx,
    scanInstructions, matchesTransfer, lamportsToSol, tolerance, requiredFieldsTruthy,
    validate_sol_amount, parsedEmail, tierIdTruthy, emailTruthy, stripString, dropLeadingSpaces,
    isSpaceChar, Project.is_active, updateMilestones, replaceProject, milestoneFlags,
    Donation.calculate_fee, List.find?, List.map, beq_iff_eq, abs_le, lt_abs]

end SolioApp
